import Mathlib

/-!
Verification of the seek-bar core of a media scrubber control
(`src/js/control-bar/progress-control/seek-bar.js`).

JavaScript numbers are modelled by `JSNum`: an exact rational together with
the IEEE non-finite values (NaN, +Infinity, -Infinity).  Every arithmetic
operation the seek bar performs follows the IEEE-754 rules on these values;
rounding plays no role in the properties below, so finite values are kept
exact.  The player (`ClockSource` in the design document) is modelled as an
explicit state record, and each call the seek bar makes into it (`play`,
`pause`, `currentTime(v)` as a seek, `scrubbing(b)`) is logged so that
call-count properties can be stated.
-/

/-- A JavaScript number: NaN, the two infinities, or a finite value
(kept as an exact rational). -/
inductive JSNum where
  | nan : JSNum
  | posInf : JSNum
  | negInf : JSNum
  | num : ℚ → JSNum
deriving DecidableEq, Repr

namespace JSNum

/-- IEEE addition on `JSNum`. -/
def add : JSNum → JSNum → JSNum
  | nan, _ => nan
  | _, nan => nan
  | posInf, negInf => nan
  | negInf, posInf => nan
  | posInf, _ => posInf
  | _, posInf => posInf
  | negInf, _ => negInf
  | _, negInf => negInf
  | num a, num b => num (a + b)

/-- IEEE negation on `JSNum`. -/
def neg : JSNum → JSNum
  | nan => nan
  | posInf => negInf
  | negInf => posInf
  | num a => num (-a)

/-- IEEE subtraction on `JSNum` (`x - y = x + (-y)`). -/
def sub (x y : JSNum) : JSNum := add x (neg y)

/-- IEEE multiplication on `JSNum` (infinity times zero is NaN). -/
def mul : JSNum → JSNum → JSNum
  | nan, _ => nan
  | _, nan => nan
  | posInf, posInf => posInf
  | posInf, negInf => negInf
  | negInf, posInf => negInf
  | negInf, negInf => posInf
  | posInf, num b => if 0 < b then posInf else if b < 0 then negInf else nan
  | num a, posInf => if 0 < a then posInf else if a < 0 then negInf else nan
  | negInf, num b => if 0 < b then negInf else if b < 0 then posInf else nan
  | num a, negInf => if 0 < a then negInf else if a < 0 then posInf else nan
  | num a, num b => num (a * b)

/-- IEEE division on `JSNum`: finite/0 is a signed infinity, 0/0 and
NaN operands give NaN, finite/infinite is 0 (the sign of zero is not
tracked; no property here distinguishes -0 from +0). -/
def div : JSNum → JSNum → JSNum
  | nan, _ => nan
  | _, nan => nan
  | posInf, posInf => nan
  | posInf, negInf => nan
  | negInf, posInf => nan
  | negInf, negInf => nan
  | posInf, num b => if b < 0 then negInf else posInf
  | negInf, num b => if b < 0 then posInf else negInf
  | num _, posInf => num 0
  | num _, negInf => num 0
  | num a, num b =>
      if b = 0 then (if a = 0 then nan else if 0 < a then posInf else negInf)
      else num (a / b)

/-- The JavaScript `>=` comparison: false whenever either side is NaN. -/
def ge : JSNum → JSNum → Bool
  | nan, _ => false
  | _, nan => false
  | posInf, _ => true
  | _, posInf => false
  | _, negInf => true
  | negInf, _ => false
  | num a, num b => b ≤ a

/-- The JavaScript `===` comparison on numbers: false whenever either side
is NaN, otherwise value equality. -/
def strictEq : JSNum → JSNum → Bool
  | nan, _ => false
  | _, nan => false
  | posInf, posInf => true
  | negInf, negInf => true
  | num a, num b => a = b
  | _, _ => false

end JSNum

/-- The data `update` publishes for one render tick: the fill percentage and
the display time handed to the human-readable time formatter (the
`aria-valuetext` input).  The formatter itself is an external collaborator,
so only its time argument is recorded. -/
structure DisplaySnapshot where
  percent : JSNum
  ariaTime : JSNum
deriving DecidableEq, Repr

/-- The combined state the seek bar can observe and mutate: the player's
playback state (current time, the cached current-time snapshot, duration,
scrubbing flag, paused flag), the seek bar's own `videoWasPlaying` field,
and observation logs for the calls issued into the player
(`seekLog` records every value passed to the `currentTime(v)` setter,
`playCalls` and `pauseCalls` count `play()` / `pause()` invocations) plus
the snapshots pushed to the renderer (`renderLog`). -/
structure SeekBarState where
  currentTime : JSNum
  cachedCurrentTime : JSNum
  duration : JSNum
  scrubbing : Bool
  paused : Bool
  videoWasPlaying : Bool
  seekLog : List JSNum
  playCalls : ℕ
  pauseCalls : ℕ
  renderLog : List DisplaySnapshot
deriving DecidableEq, Repr

/-- Modelled from the spec: `ClockSource.seekTo` is an external collaborator
(the player is not under `src/`); per the design document's section 4.3 the
clock validates seek targets itself and fails closed, clamping out-of-range
targets into `[0, duration]`.  Non-finite targets or durations are left to
the clock unmodelled (the target is stored as-is); no claim depends on that
case. -/
def seekApply : JSNum → JSNum → JSNum
  | JSNum.num t, JSNum.num d => JSNum.num (max 0 (min t d))
  | t, _ => t

/-- The player's `currentTime(v)` setter: logs the issued target and applies
it to the clock via `seekApply`. -/
def playerSeekTo (s : SeekBarState) (t : JSNum) : SeekBarState :=
  { s with seekLog := s.seekLog ++ [t], currentTime := seekApply t s.duration }

/-- The player's `play()`: unpauses and is counted. -/
def playerPlay (s : SeekBarState) : SeekBarState :=
  { s with paused := false, playCalls := s.playCalls + 1 }

/-- The player's `pause()`: pauses and is counted. -/
def playerPause (s : SeekBarState) : SeekBarState :=
  { s with paused := true, pauseCalls := s.pauseCalls + 1 }

/-- The player's `scrubbing(b)` setter. -/
def playerSetScrubbing (s : SeekBarState) (b : Bool) : SeekBarState :=
  { s with scrubbing := b }

/-- `SeekBar.getPercent` from the source: picks the cached current time
while scrubbing (else the live current time), divides by the duration, and
returns the quotient capped above at 1 (`percent >= 1 ? 1 : percent`). -/
def getPercent (s : SeekBarState) : JSNum :=
  let time := if s.scrubbing then s.cachedCurrentTime else s.currentTime
  let percent := JSNum.div time s.duration
  if JSNum.ge percent (JSNum.num 1) then JSNum.num 1 else percent

/-- `SeekBar.update` from the source: computes the percent (the slider
base's `update`, not under `src/`, returns `getPercent` per the design
document's section 4.1), recomputes the display time with the same
scrubbing-aware rule, and publishes both.  The DOM attribute writes and the
fill-bar call are render outputs, captured as the returned snapshot. -/
def update (s : SeekBarState) : DisplaySnapshot :=
  let percent := getPercent s
  let time := if s.scrubbing then s.cachedCurrentTime else s.currentTime
  { percent := percent, ariaTime := time }

/-- `SeekBar.handleMouseDown` from the source: sets the player's scrubbing
flag, records `videoWasPlaying = !paused()`, and pauses.  The slider base's
`handleMouseDown` (not under `src/`) manages DOM listeners, which the design
document places out of scope, so it contributes no playback-state change
here. -/
def handleMouseDown (s : SeekBarState) : SeekBarState :=
  let s1 := playerSetScrubbing s true
  let s2 := { s1 with videoWasPlaying := !s1.paused }
  playerPause s2

/-- `SeekBar.handleMouseMove` from the source, with the pointer-to-track
fraction (`calculateDistance`, an external collaborator) passed in as
`dist`: computes `newTime = dist * duration()`, subtracts 0.1 when that
strictly equals the duration, and issues the seek. -/
def handleMouseMove (s : SeekBarState) (dist : JSNum) : SeekBarState :=
  let newTime := JSNum.mul dist s.duration
  let newTime2 :=
    if JSNum.strictEq newTime s.duration then JSNum.sub newTime (JSNum.num (1/10))
    else newTime
  playerSeekTo s newTime2

/-- `SeekBar.handleMouseUp` from the source: clears the player's scrubbing
flag and, when `videoWasPlaying` holds, calls `play()`.  The slider base's
`handleMouseUp` (not under `src/`) removes DOM listeners and triggers a
render, with no playback-state change.  Note the source never resets
`videoWasPlaying`. -/
def handleMouseUp (s : SeekBarState) : SeekBarState :=
  let s1 := playerSetScrubbing s false
  if s1.videoWasPlaying then playerPlay s1 else s1

/-- `SeekBar.stepForward` from the source: seek to `currentTime() + 5`
(`STEP_SECONDS = 5`). -/
def stepForward (s : SeekBarState) : SeekBarState :=
  playerSeekTo s (JSNum.add s.currentTime (JSNum.num 5))

/-- `SeekBar.stepBack` from the source: seek to `currentTime() - 5`. -/
def stepBack (s : SeekBarState) : SeekBarState :=
  playerSeekTo s (JSNum.sub s.currentTime (JSNum.num 5))

/-- Modelled from the spec: the design document's `currentDisplayTime`
operation (section 4.1) — the cached scrub-time while scrubbing, the live
clock time otherwise.  Stated separately from the source functions so the
source's inlined conditionals can be proved to refine it. -/
def currentDisplayTime (s : SeekBarState) : JSNum :=
  if s.scrubbing then s.cachedCurrentTime else s.currentTime

/-- Clamp a rational into `[lo, hi]`; the spec's `clamp`. -/
def clampQ (x lo hi : ℚ) : ℚ := max lo (min x hi)

/-- The seek bar's core entry points, as an operation alphabet:
`mouseDown` / `mouseMove dist` / `mouseUp` are the pointer handlers,
`clockTick` is a clock-advance (`timeupdate` / `ended`) display update, and
`stepFwd` / `stepBk` are the keyboard steps. -/
inductive CoreOp where
  | mouseDown : CoreOp
  | mouseMove : JSNum → CoreOp
  | mouseUp : CoreOp
  | clockTick : CoreOp
  | stepFwd : CoreOp
  | stepBk : CoreOp
deriving DecidableEq, Repr

/-- Apply one core operation to the state.  A `clockTick` runs `update`,
which mutates no playback state and appends its snapshot to the render
log. -/
def applyOp (s : SeekBarState) : CoreOp → SeekBarState
  | CoreOp.mouseDown => handleMouseDown s
  | CoreOp.mouseMove d => handleMouseMove s d
  | CoreOp.mouseUp => handleMouseUp s
  | CoreOp.clockTick => { s with renderLog := s.renderLog ++ [update s] }
  | CoreOp.stepFwd => stepForward s
  | CoreOp.stepBk => stepBack s

/-- Apply a sequence of core operations left to right. -/
def applyOps (s : SeekBarState) (ops : List CoreOp) : SeekBarState :=
  ops.foldl applyOp s

/-- Modelled from the spec: the throttle wrapper the constructor installs
around `update` (`Fn.throttle(Fn.bind(this, this.update), 50)`) lives in
`utils/fn.js`, which is not under `src/`.  Per the design document
(sections 4.1 and 5) it is a trailing-edge rate limiter with a single
pending slot: a notification while nothing is pending schedules one
deferred execution 50 ms out, and a notification while one is pending
replaces the pending call's argument without scheduling a second one.
`pending` holds the scheduled fire time and the state snapshot the deferred
execution will use. -/
structure ThrottledCall where
  pending : Option (ℕ × SeekBarState)
deriving DecidableEq, Repr

/-- A clock-advance notification reaching the throttled `update` at time
`now` with player state `s`. -/
def ThrottledCall.notify (th : ThrottledCall) (now : ℕ) (s : SeekBarState) :
    ThrottledCall :=
  match th.pending with
  | none => ⟨some (now + 50, s)⟩
  | some (ft, _) => ⟨some (ft, s)⟩

/-- The timer firing at time `now`: if a deferred call is due it executes
`update` on the stored state, emptying the pending slot; otherwise nothing
executes. -/
def ThrottledCall.fire (th : ThrottledCall) (now : ℕ) :
    ThrottledCall × Option DisplaySnapshot :=
  match th.pending with
  | some (ft, s) => if ft ≤ now then (⟨none⟩, some (update s)) else (th, none)
  | none => (th, none)

/-- Deliver a list of timestamped notifications in order. -/
def notifyAll (th : ThrottledCall) (evs : List (ℕ × SeekBarState)) :
    ThrottledCall :=
  evs.foldl (fun a e => ThrottledCall.notify a e.1 e.2) th

/-- A baseline concrete state used by witnesses: a paused, non-scrubbing
player at time 0 of a 100-unit stream with empty logs. -/
def baseState : SeekBarState :=
  { currentTime := JSNum.num 0
    cachedCurrentTime := JSNum.num 0
    duration := JSNum.num 100
    scrubbing := false
    paused := true
    videoWasPlaying := false
    seekLog := []
    playCalls := 0
    pauseCalls := 0
    renderLog := [] }

theorem applyOp_keeps_scrubbing (s : SeekBarState) (op : CoreOp)
    (hop : op ≠ CoreOp.mouseUp) (hs : s.scrubbing = true) :
    (applyOp s op).scrubbing = true := by
  cases op
  case mouseUp => exact absurd rfl hop
  all_goals
    simp_all [applyOp, handleMouseDown, handleMouseMove, playerSeekTo,
      playerPause, playerSetScrubbing, stepForward, stepBack]

theorem applyOps_keeps_scrubbing (ops : List CoreOp) :
    ∀ s : SeekBarState, s.scrubbing = true →
      (∀ op ∈ ops, op ≠ CoreOp.mouseUp) → (applyOps s ops).scrubbing = true := by
  induction ops with
  | nil => intro s hs _; simpa [applyOps] using hs
  | cons op ops ih =>
      intro s hs h
      have hstep := applyOp_keeps_scrubbing s op (h op (by simp)) hs
      have htail : ∀ o ∈ ops, o ≠ CoreOp.mouseUp := fun o ho => h o (by simp [ho])
      simpa [applyOps, List.foldl_cons] using ih (applyOp s op) hstep htail

/-- Claim C1 (code_bug evidence): evaluating `getPercent` at the failing
inputs.  With `duration = NaN` the result is NaN, with `duration = 0` and
a positive time the result is 1, and with `duration = -10` and time 30 the
result is -3 — in every case not the 0 the specification promises, and for
NaN and -3 outside the 0-to-1 range the function's own doc comment
declares. -/
theorem getPercent_bad_duration_eval :
    getPercent { baseState with duration := JSNum.nan, currentTime := JSNum.num 30 }
      = JSNum.nan ∧
    getPercent { baseState with duration := JSNum.num 0, currentTime := JSNum.num 30 }
      = JSNum.num 1 ∧
    getPercent { baseState with duration := JSNum.num (-10), currentTime := JSNum.num 30 }
      = JSNum.num (-3) ∧
    JSNum.nan ≠ JSNum.num 0 ∧ JSNum.num 1 ≠ JSNum.num 0 ∧
    JSNum.num (-3) ≠ JSNum.num 0 := by
  refine ⟨rfl, by decide, ?_, by decide, by decide, by decide⟩
  show getPercent _ = _
  norm_num [getPercent, baseState, JSNum.div, JSNum.ge]

/-- Claim C3: for a non-negative display time `t` and a positive duration
`d`, `getPercent` returns exactly `clamp(t/d, 0, 1)`, a value inside
`[0, 1]`. -/
theorem getPercent_clamped (s : SeekBarState) (t d : ℚ)
    (ht : currentDisplayTime s = JSNum.num t) (hd : s.duration = JSNum.num d)
    (ht0 : 0 ≤ t) (hd0 : 0 < d) :
    getPercent s = JSNum.num (clampQ (t / d) 0 1) ∧
    0 ≤ clampQ (t / d) 0 1 ∧ clampQ (t / d) 0 1 ≤ 1 := by
  have htime : (if s.scrubbing then s.cachedCurrentTime else s.currentTime)
      = JSNum.num t := ht
  have hq : 0 ≤ t / d := div_nonneg ht0 hd0.le
  refine ⟨?_, le_max_left 0 _, max_le zero_le_one (min_le_right _ _)⟩
  simp only [getPercent, htime, hd, JSNum.div, if_neg hd0.ne']
  rcases le_or_lt 1 (t / d) with h1 | h1
  · simp only [JSNum.ge, decide_eq_true_eq, clampQ]
    rw [if_pos h1, min_eq_right h1, max_eq_right zero_le_one]
  · simp only [JSNum.ge, decide_eq_true_eq, clampQ]
    rw [if_neg (not_le.mpr h1), min_eq_left h1.le, max_eq_right hq]

/-- Witness for claim C3: the spec's own scenario, `currentTime = 30`,
`duration = 120`, yields `percent = 1/4`. -/
theorem getPercent_clamped_witness :
    getPercent { baseState with
        currentTime := JSNum.num 30
        duration := JSNum.num 120 }
      = JSNum.num (clampQ ((30 : ℚ) / 120) 0 1) ∧
    0 ≤ clampQ ((30 : ℚ) / 120) 0 1 ∧ clampQ ((30 : ℚ) / 120) 0 1 ≤ 1 :=
  getPercent_clamped _ 30 120 rfl rfl (by norm_num) (by norm_num)

/-- Claim C6: a begin (`handleMouseDown`) immediately followed by the
matching end (`handleMouseUp`), with zero drags in between, restores the
paused flag to its pre-begin value and leaves scrubbing false. -/
theorem begin_end_restores_paused (s : SeekBarState) :
    (handleMouseUp (handleMouseDown s)).paused = s.paused ∧
    (handleMouseUp (handleMouseDown s)).scrubbing = false := by
  cases hp : s.paused <;>
    simp [handleMouseUp, handleMouseDown, playerPlay, playerPause,
      playerSetScrubbing, hp]

/-- Claim C8: both `getPercent` and `update` read their display time
through the spec's `currentDisplayTime` rule — the cached scrub-time
snapshot while `scrubbing` is true, the clock's live `currentTime`
otherwise. -/
theorem display_time_source (s : SeekBarState) :
    getPercent s
      = (if JSNum.ge (JSNum.div (currentDisplayTime s) s.duration) (JSNum.num 1)
          then JSNum.num 1 else JSNum.div (currentDisplayTime s) s.duration) ∧
    (update s).ariaTime = currentDisplayTime s ∧
    (s.scrubbing = true → currentDisplayTime s = s.cachedCurrentTime) ∧
    (s.scrubbing = false → currentDisplayTime s = s.currentTime) := by
  refine ⟨rfl, rfl, ?_, ?_⟩ <;> intro h <;> simp [currentDisplayTime, h]

/-- Witness for claim C8: at a scrubbing state the published display time
is the cached snapshot (7); at a non-scrubbing state it is the live time
(9). -/
theorem display_time_source_witness :
    (update { baseState with
        scrubbing := true
        cachedCurrentTime := JSNum.num 7 }).ariaTime = JSNum.num 7 ∧
    (update { baseState with currentTime := JSNum.num 9 }).ariaTime
      = JSNum.num 9 :=
  ⟨((display_time_source { baseState with
      scrubbing := true
      cachedCurrentTime := JSNum.num 7 }).2.1).trans
    ((display_time_source _).2.2.1 rfl),
   ((display_time_source { baseState with
      currentTime := JSNum.num 9 }).2.1).trans
    ((display_time_source _).2.2.2 rfl)⟩

theorem notifyAll_pending (evs : List (ℕ × SeekBarState)) :
    ∀ (ft : ℕ) (x : SeekBarState),
      notifyAll ⟨some (ft, x)⟩ evs
        = ⟨some (ft, (evs.map Prod.snd).getLastD x)⟩ := by
  induction evs with
  | nil => intro ft x; rfl
  | cons e es ih =>
      intro ft x
      have h1 : notifyAll (⟨some (ft, x)⟩ : ThrottledCall) (e :: es)
          = notifyAll ⟨some (ft, e.2)⟩ es := by
        simp [notifyAll, ThrottledCall.notify]
      rw [h1, ih ft e.2, List.map_cons, List.getLastD_cons]

/-- Claim C2 (counterexample): starting from a playing player, one
begin-end session followed by a duplicate end invokes `play()` a second
time (`videoWasPlaying` is never reset), and a begin during an active
session overwrites the recorded `videoWasPlaying` from true to false —
both contradict the claimed no-op behaviour of redundant transitions. -/
theorem scrub_transitions_counterexample :
    (handleMouseUp (handleMouseUp (handleMouseDown
        { baseState with paused := false }))).playCalls = 2 ∧
    (handleMouseDown { baseState with paused := false }).videoWasPlaying
      = true ∧
    (handleMouseDown (handleMouseDown
        { baseState with paused := false })).videoWasPlaying = false :=
  ⟨rfl, rfl, rfl⟩

/-- Claim C2 as amended: an end (`handleMouseUp`) while `videoWasPlaying`
is false only clears the scrubbing flag; but `videoWasPlaying` is not
cleared by an end, so a second end after a session that began during
playback calls `play()` again — changing nothing beyond the play-call
count, since playback is already running — and a begin
(`handleMouseDown`) during an active session is not a no-op: it re-records
`videoWasPlaying` as false (the first begin paused playback) and issues a
redundant `pause()`, so the matching end will not resume playback. -/
theorem scrub_transitions_amended (s : SeekBarState) :
    (s.videoWasPlaying = false →
      handleMouseUp s = { s with scrubbing := false }) ∧
    (s.videoWasPlaying = true →
      handleMouseUp (handleMouseUp s)
        = { handleMouseUp s with
            playCalls := (handleMouseUp s).playCalls + 1 }) ∧
    handleMouseDown (handleMouseDown s)
      = { handleMouseDown s with
          videoWasPlaying := false
          pauseCalls := (handleMouseDown s).pauseCalls + 1 } := by
  refine ⟨?_, ?_, ?_⟩
  · intro h
    cases s
    simp_all [handleMouseUp, playerSetScrubbing, playerPlay]
  · intro h
    cases s
    simp_all [handleMouseUp, playerSetScrubbing, playerPlay]
  · cases s
    simp [handleMouseDown, playerPause, playerSetScrubbing]

/-- Witness for the amended claim C2, at concrete states: an end with
`videoWasPlaying` false only clears scrubbing; after a playing session a
duplicate end repeats the play call; a doubled begin forgets that playback
was active. -/
theorem scrub_transitions_amended_witness :
    (handleMouseUp baseState = { baseState with scrubbing := false }) ∧
    (handleMouseUp (handleMouseUp { baseState with videoWasPlaying := true })
      = { handleMouseUp { baseState with videoWasPlaying := true } with
          playCalls :=
            (handleMouseUp
              { baseState with videoWasPlaying := true }).playCalls + 1 }) ∧
    handleMouseDown (handleMouseDown baseState)
      = { handleMouseDown baseState with
          videoWasPlaying := false
          pauseCalls := (handleMouseDown baseState).pauseCalls + 1 } :=
  ⟨(scrub_transitions_amended baseState).1 rfl,
   (scrub_transitions_amended
      { baseState with videoWasPlaying := true }).2.1 rfl,
   (scrub_transitions_amended baseState).2.2⟩

/-- Claim C4: with the 50 ms trailing throttle, any run of notifications
inside one window leaves exactly one pending deferred call, holding the
state of the last notification; when the window elapses exactly one
`update` executes, on that last state, and the pending slot is emptied so
an immediate re-fire executes nothing. -/
theorem throttle_trailing_coalesce (t0 : ℕ) (s0 : SeekBarState)
    (rest : List (ℕ × SeekBarState))
    (hwin : ∀ e ∈ rest, t0 ≤ e.1 ∧ e.1 < t0 + 50) :
    notifyAll ⟨none⟩ ((t0, s0) :: rest)
      = ⟨some (t0 + 50, (rest.map Prod.snd).getLastD s0)⟩ ∧
    ThrottledCall.fire (notifyAll ⟨none⟩ ((t0, s0) :: rest)) (t0 + 50)
      = (⟨none⟩, some (update ((rest.map Prod.snd).getLastD s0))) ∧
    ThrottledCall.fire
        (ThrottledCall.fire (notifyAll ⟨none⟩ ((t0, s0) :: rest)) (t0 + 50)).1
        (t0 + 50)
      = (⟨none⟩, none) := by
  have h1 : notifyAll (⟨none⟩ : ThrottledCall) ((t0, s0) :: rest)
      = ⟨some (t0 + 50, (rest.map Prod.snd).getLastD s0)⟩ := by
    have h0 : notifyAll (⟨none⟩ : ThrottledCall) ((t0, s0) :: rest)
        = notifyAll ⟨some (t0 + 50, s0)⟩ rest := by
      simp [notifyAll, ThrottledCall.notify]
    rw [h0, notifyAll_pending]
  refine ⟨h1, ?_, ?_⟩ <;> rw [h1] <;> simp [ThrottledCall.fire]

/-- Witness for claim C4: three notifications at 0, 10 and 49 ms produce
one firing at 50 ms that updates with the last state (current time 2), and
a second firing attempt executes nothing. -/
theorem throttle_trailing_coalesce_witness :
    ThrottledCall.fire
        (notifyAll ⟨none⟩
          [(0, baseState),
           (10, { baseState with currentTime := JSNum.num 1 }),
           (49, { baseState with currentTime := JSNum.num 2 })]) 50
      = (⟨none⟩, some (update { baseState with currentTime := JSNum.num 2 })) :=
  (throttle_trailing_coalesce 0 baseState
    [(10, { baseState with currentTime := JSNum.num 1 }),
     (49, { baseState with currentTime := JSNum.num 2 })]
    (by decide)).2.1

/-- Claim C5: a drag with pointer fraction `r` over duration `d` issues a
seek to `r * d`, except that 0.1 is subtracted first when `r * d` equals
the duration exactly; in particular `r = 1` with `d = 100` seeks to 99.9,
not 100. -/
theorem drag_seek_target (s : SeekBarState) (r d : ℚ)
    (hd : s.duration = JSNum.num d) :
    (handleMouseMove s (JSNum.num r)).seekLog
      = s.seekLog ++ [JSNum.num (if r * d = d then r * d - 1/10 else r * d)] ∧
    (r = 1 → d = 100 →
      (handleMouseMove s (JSNum.num r)).seekLog
        = s.seekLog ++ [JSNum.num (999/10)]) := by
  constructor
  · simp only [handleMouseMove, hd, JSNum.mul, JSNum.strictEq, JSNum.sub,
      JSNum.add, JSNum.neg, playerSeekTo, decide_eq_true_eq]
    by_cases h : r * d = d
    · simp [h, sub_eq_add_neg]
    · simp [h]
  · intro hr hdd
    subst hr
    subst hdd
    simp only [handleMouseMove, hd, JSNum.mul, JSNum.strictEq, JSNum.sub,
      JSNum.add, JSNum.neg, playerSeekTo, decide_eq_true_eq]
    norm_num

/-- Witness for claim C5: at the base state (duration 100) a drag with
fraction 1 issues a seek to 99.9. -/
theorem drag_seek_target_witness :
    (handleMouseMove baseState (JSNum.num 1)).seekLog
      = baseState.seekLog ++ [JSNum.num (999/10)] :=
  (drag_seek_target baseState 1 100 rfl).2 rfl rfl

/-- Claim C7: a begin (`handleMouseDown`) sets the scrubbing flag, every
run of core operations that does not contain an end (`handleMouseUp`)
keeps it set, and the end clears it. -/
theorem scrubbing_invariant (s : SeekBarState) (ops : List CoreOp)
    (h : ∀ op ∈ ops, op ≠ CoreOp.mouseUp) :
    (applyOps (handleMouseDown s) ops).scrubbing = true ∧
    (handleMouseUp (applyOps (handleMouseDown s) ops)).scrubbing = false := by
  have hbegin : (handleMouseDown s).scrubbing = true := by
    simp [handleMouseDown, playerPause, playerSetScrubbing]
  refine ⟨applyOps_keeps_scrubbing ops (handleMouseDown s) hbegin h, ?_⟩
  cases hv : (applyOps (handleMouseDown s) ops).videoWasPlaying <;>
    simp [handleMouseUp, playerSetScrubbing, playerPlay, hv]

/-- Witness for claim C7: after a begin, a clock tick, a drag and a
keyboard step the scrubbing flag is still set, and the following end
clears it. -/
theorem scrubbing_invariant_witness :
    (applyOps (handleMouseDown baseState)
        [CoreOp.clockTick, CoreOp.mouseMove (JSNum.num (1/2)),
         CoreOp.stepFwd]).scrubbing = true ∧
    (handleMouseUp (applyOps (handleMouseDown baseState)
        [CoreOp.clockTick, CoreOp.mouseMove (JSNum.num (1/2)),
         CoreOp.stepFwd])).scrubbing = false :=
  scrubbing_invariant baseState
    [CoreOp.clockTick, CoreOp.mouseMove (JSNum.num (1/2)), CoreOp.stepFwd]
    (by decide)

/-- Claim C9: `stepForward` issues a seek to `currentTime() + 5` and
`stepBack` to `currentTime() - 5`; for any time `t` with
`0 ≤ t ≤ duration - 5`, a step forward followed by a step back returns
the clock exactly to `t`, with the clock applying in-range seeks
exactly. -/
theorem step_roundtrip (s : SeekBarState) (t d : ℚ)
    (hct : s.currentTime = JSNum.num t) (hd : s.duration = JSNum.num d)
    (h0 : 0 ≤ t) (h5 : t ≤ d - 5) :
    (stepForward s).seekLog = s.seekLog ++ [JSNum.num (t + 5)] ∧
    (stepBack (stepForward s)).seekLog
      = s.seekLog ++ [JSNum.num (t + 5), JSNum.num t] ∧
    (stepBack (stepForward s)).currentTime = JSNum.num t := by
  have hle : t + 5 ≤ d := by linarith
  have h05 : (0 : ℚ) ≤ t + 5 := by linarith
  have htd : t ≤ d := by linarith
  have e1 : stepForward s
      = { s with seekLog := s.seekLog ++ [JSNum.num (t + 5)]
                 currentTime := JSNum.num (t + 5) } := by
    simp [stepForward, playerSeekTo, hct, hd, JSNum.add, seekApply,
      min_eq_left hle, max_eq_right h05]
  have e2 : stepBack (stepForward s)
      = { s with seekLog := s.seekLog ++ [JSNum.num (t + 5), JSNum.num t]
                 currentTime := JSNum.num t } := by
    rw [e1]
    simp [stepBack, playerSeekTo, JSNum.sub, JSNum.add, JSNum.neg, hd,
      seekApply, add_neg_cancel_right, min_eq_left htd, max_eq_right h0]
  exact ⟨by rw [e1], by rw [e2], by rw [e2]⟩

/-- Witness for claim C9: from time 10 of a 100-unit stream, stepping
forward then back issues seeks to 15 and 10 and lands back at 10. -/
theorem step_roundtrip_witness :
    (stepBack (stepForward
        { baseState with currentTime := JSNum.num 10 })).currentTime
      = JSNum.num 10 :=
  (step_roundtrip { baseState with currentTime := JSNum.num 10 } 10 100
    rfl rfl (by norm_num) (by norm_num)).2.2

/-- Claim C10: when the duration is exactly 0, every drag with a pointer
fraction in `[0, 1]` issues a seek to -0.1: the computed target
`r * 0 = 0` strictly equals the duration, so the end-of-media adjustment
subtracts 0.1 from 0. -/
theorem zero_duration_drag (s : SeekBarState) (r : ℚ)
    (hd : s.duration = JSNum.num 0) (hr0 : 0 ≤ r) (hr1 : r ≤ 1) :
    (handleMouseMove s (JSNum.num r)).seekLog
      = s.seekLog ++ [JSNum.num (-(1/10))] := by
  simp only [handleMouseMove, hd, JSNum.mul, JSNum.strictEq, JSNum.sub,
    JSNum.add, JSNum.neg, playerSeekTo, mul_zero, decide_eq_true_eq]
  norm_num

/-- Witness for claim C10: with duration 0 a mid-track drag (fraction 1/2)
issues a seek to -0.1. -/
theorem zero_duration_drag_witness :
    (handleMouseMove { baseState with duration := JSNum.num 0 }
        (JSNum.num (1/2))).seekLog
      = ({ baseState with duration := JSNum.num 0 } : SeekBarState).seekLog
        ++ [JSNum.num (-(1/10))] :=
  zero_duration_drag { baseState with duration := JSNum.num 0 } (1/2) rfl
    (by norm_num) (by norm_num)
